import Mathlib

/-!
# PX4 Firmware: land detector, INA226 start-up, GPS baud rate, stabilized manual flight task

A shallow embedding of

* `src/modules/land_detector/MulticopterLandDetector.h` (the trigger-time
  constants, the parameter block and the per-criterion hooks; the bodies of
  the hooks and the debounce utility are not part of the sources at hand and
  are modelled from the specification, each such definition saying so),
* `src/drivers/power_monitor/ina226/ina226_main.cpp`,
* `src/drivers/gps/gps_helper.cpp` (`GPSHelper::setBaudrate`, termios build),
* `src/lib/FlightTasks/tasks/ManualStabilized/FlightTaskManualStabilized.cpp`.

Conventions: `float` quantities are rationals (exact arithmetic), `uint64_t`
microsecond timestamps are natural numbers, library calls whose code is not
at hand are parameters of the definitions that use them.
-/

namespace land_detector

/-! ## Constants of `MulticopterLandDetector.h` -/

/-- Time in us that landing conditions have to hold before triggering a land
(`MulticopterLandDetector.h`, line 88). -/
def land_detector_trigger_time_us : Nat := 300000

/-- Time in us that almost landing conditions have to hold before triggering
almost landed (line 91). -/
def maybe_land_detector_trigger_time_us : Nat := 250000

/-- Time in us that ground contact condition have to hold before triggering
contact ground (line 94). -/
def ground_contact_trigger_time_us : Nat := 350000

/-- Time interval in us in which wider acceptance thresholds are used after
landed (line 97). -/
def land_detector_land_phase_time_us : Nat := 2000000

/-- Largest value of a `uint64_t`, the type of the four constants. -/
def UINT64_MAX : Nat := 2 ^ 64 - 1

/-! ## Debounced criterion tracker (specification section 4.1) -/

/-- Modelled from the spec: the debounced criterion tracker
`update(raw_sample, now) -> latched_bool` of section 4.1, whose code is not
among the sources. The state is the "true-since" timestamp, `none` while it is
unset; the result is the new state and the latched value.
* raw sample false: reset true-since to `now`, return false;
* raw sample true and true-since unset: set it to `now`, return false;
* raw sample true and `now - true_since >= trigger_window`: return true;
* otherwise return false.
Timestamps are non-decreasing by the caller's contract (section 5), so the
difference is a subtraction of naturals. -/
def update (trigger_window : Nat) (true_since : Option Nat) (raw_sample : Bool) (now : Nat) :
    Option Nat × Bool :=
  if raw_sample = false then (some now, false)
  else
    match true_since with
    | none => (some now, false)
    | some t => if trigger_window ≤ now - t then (some t, true) else (some t, false)

/-! ## Multirotor criteria provider and detector state machine

The class of `MulticopterLandDetector.h` declares the hooks
`_get_ground_contact_state`, `_get_maybe_landed_state`, `_get_landed_state`,
`_get_freefall_state`, `_get_max_altitude` and the helpers `getTakeoffThrottle`,
`hasAltitudeLock`, `hasPositionLock`, `hasMinimalThrust`, `hasLowThrust`,
`isClimbRateEnabled`; their bodies are not among the sources and follow the
specification, sections 4.2 to 4.5. -/

/-- The parameter block `_params` of the header (lines 116-128); the `float`
fields are rationals. `freefall_trigger_time` is expressed in the unit of the
timestamps (microseconds). -/
structure Params where
  maxClimbRate : ℚ
  maxVelocity : ℚ
  maxRotation_rad_s : ℚ
  minThrottle : ℚ
  hoverThrottle : ℚ
  throttleRange : ℚ
  minManThrottle : ℚ
  freefall_acc_threshold : ℚ
  freefall_trigger_time : ℚ
  altitude_max : ℚ
  landSpeed : ℚ
deriving DecidableEq

/-- Modelled from the spec: the part of the telemetry snapshot (section 3)
that the raw signal evaluators of section 4.2 and the predicates of section
4.3 read; the topic structures are not among the sources. -/
structure Snapshot where
  /-- local position reports a valid vertical estimate -/
  v_z_valid : Bool
  /-- local position reports a valid horizontal estimate -/
  v_xy_valid : Bool
  /-- vertical velocity -/
  vz : ℚ
  /-- horizontal velocity (magnitude) -/
  v_horizontal : ℚ
  /-- maximum of the actuator thrust channels -/
  thrust : ℚ
  /-- angular rate (magnitude) -/
  rotation : ℚ
  /-- control mode is manual/stabilized -/
  flag_control_manual_enabled : Bool
  /-- control mode permits climb-rate-based gating -/
  flag_control_climb_rate_enabled : Bool
  /-- measured specific-force magnitude -/
  acceleration : ℚ
deriving DecidableEq

/-- Modelled from the spec: `getTakeoffThrottle()` "returns `minManThrottle`
if the control mode is manual/stabilized, else `minThrottle`" (section 4.2;
declared at line 152 of the header, body not among the sources). -/
def getTakeoffThrottle (thr : Params) (s : Snapshot) : ℚ :=
  if s.flag_control_manual_enabled = true then thr.minManThrottle else thr.minThrottle

/-- Modelled from the spec: `hasAltitudeLock()` is "true iff the
local-position sample reports a valid vertical estimate" (header line 153). -/
def hasAltitudeLock (s : Snapshot) : Bool := s.v_z_valid

/-- Modelled from the spec: `hasPositionLock()` is "true iff both vertical
and horizontal estimates are valid" (header line 154). -/
def hasPositionLock (s : Snapshot) : Bool := s.v_z_valid && s.v_xy_valid

/-- Modelled from the spec: `hasMinimalThrust()` is "true iff the maximum of
the actuator thrust channels is below `getTakeoffThrottle()`" (header line 155). -/
def hasMinimalThrust (thr : Params) (s : Snapshot) : Bool :=
  decide (s.thrust < getTakeoffThrottle thr s)

/-- Modelled from the spec: `hasLowThrust()` is "true iff thrust is below
`hoverThrottle - throttleRange`" (header line 156). -/
def hasLowThrust (thr : Params) (s : Snapshot) : Bool :=
  decide (s.thrust < thr.hoverThrottle - thr.throttleRange)

/-- Modelled from the spec: `isClimbRateEnabled()` is "true iff the active
control mode permits climb-rate-based gating" (header line 157). -/
def isClimbRateEnabled (s : Snapshot) : Bool := s.flag_control_climb_rate_enabled

/-- Modelled from the spec: ground contact raw condition of section 4.3,
"`hasMinimalThrust()` AND (vertical velocity below `landSpeed` OR altitude lock
unavailable) AND angular rate below `maxRotation_rad_s`", under the thresholds
`thr` in force this cycle (hook declared at header line 78). -/
def _get_ground_contact_state (thr : Params) (s : Snapshot) : Bool :=
  hasMinimalThrust thr s && (decide (s.vz < thr.landSpeed) || !hasAltitudeLock s)
    && decide (s.rotation < thr.maxRotation_rad_s)

/-- Modelled from the spec: maybe-landed raw condition of section 4.3,
"ground-contact criterion's raw condition AND `hasLowThrust()` AND horizontal
velocity below `maxVelocity`" (hook declared at header line 80). -/
def _get_maybe_landed_state (thr : Params) (s : Snapshot) : Bool :=
  _get_ground_contact_state thr s && hasLowThrust thr s
    && decide (s.v_horizontal < thr.maxVelocity)

/-- Modelled from the spec: landed raw condition of section 4.3,
"maybe-landed criterion's latched value AND `hasMinimalThrust()` sustained AND
(climb rate disabled OR vertical speed magnitude below `maxClimbRate`)"; the
latched maybe-landed value of this cycle is the argument `maybe_landed` (hook
declared at header line 76). -/
def _get_landed_state (thr : Params) (s : Snapshot) (maybe_landed : Bool) : Bool :=
  maybe_landed && hasMinimalThrust thr s
    && (!isClimbRateEnabled s || decide (|s.vz| < thr.maxClimbRate))

/-- Modelled from the spec: freefall raw condition of section 4.3, "measured
specific-force magnitude below `freefall_acc_threshold`" (hook declared at
header line 82). -/
def _get_freefall_state (p : Params) (s : Snapshot) : Bool :=
  decide (s.acceleration < p.freefall_acc_threshold)

/-- Modelled from the spec: the freefall trigger window, "for longer than
`freefall_trigger_time`" with the contract of section 4.1: an elapsed whole
number of microseconds reaches the parameter iff it reaches its ceiling. -/
def freefall_trigger_window (p : Params) : Nat := ⌈p.freefall_trigger_time⌉₊

/-- Modelled from the spec: max altitude "returns `altitude_max` parameter
verbatim" (hook declared at header line 84). -/
def _get_max_altitude (p : Params) : ℚ := p.altitude_max

/-- Modelled from the spec: the Land-Detected Output of section 3, with the
fields landed, ground_contact, maybe_landed, freefall and max_altitude. -/
structure LandDetectedOutput where
  landed : Bool
  ground_contact : Bool
  maybe_landed : Bool
  freefall : Bool
  max_altitude : ℚ
deriving DecidableEq

/-- Modelled from the spec: the detector-internal state, one true-since
timestamp per criterion tracker (section 3, "Criterion"), the landed value of
the previous evaluation, and `_landed_time` (header line 149), the time at
which landed first latched, `none` while it never has. -/
structure DetectorState where
  ground_contact_since : Option Nat
  maybe_landed_since : Option Nat
  landed_since : Option Nat
  freefall_since : Option Nat
  landed : Bool
  _landed_time : Option Nat
deriving DecidableEq

/-- Modelled from the spec: state of a detector at construction, where no
tracker has a true-since timestamp and landed has never latched. -/
def DetectorState.init : DetectorState :=
  { ground_contact_since := none, maybe_landed_since := none, landed_since := none,
    freefall_since := none, landed := false, _landed_time := none }

/-- Modelled from the spec: what one evaluation reads (section 4.4): the
live parameter set, the widened thresholds in force during the post-landing
interval (the specification fixes their existence, not their amount), the
telemetry snapshot and the time. -/
structure Input where
  params : Params
  wide : Params
  snapshot : Snapshot
  now : Nat

/-- Modelled from the spec: "once latched landed = true, thresholds for all
three criteria are widened for a fixed post-landing interval
(`land_detector_land_phase_time_us`, 2 s)", section 4.3. -/
def inLandPhase (st : DetectorState) (now : Nat) : Bool :=
  match st._landed_time with
  | none => false
  | some t => decide (now - t ≤ land_detector_land_phase_time_us)

/-- Modelled from the spec: the thresholds in force for the ground-contact,
maybe-landed and landed criteria in this cycle, widened during the
post-landing interval (section 4.3). -/
def thresholds (st : DetectorState) (i : Input) : Params :=
  if inLandPhase st i.now = true then i.wide else i.params

/-- Modelled from the spec: `evaluate(snapshot, now) -> LandDetectedOutput`
of section 4.4: the raw-condition hooks are called in the fixed order
ground-contact, maybe-landed, landed, freefall, each fed through its debounced
criterion tracker (windows of section 4.3); maybe-landed reads the raw
ground-contact condition, landed reads the maybe-landed latched value of this
cycle (section 4.5); freefall reads neither. -/
def evaluate (st : DetectorState) (i : Input) : DetectorState × LandDetectedOutput :=
  let thr := thresholds st i
  let gc := update ground_contact_trigger_time_us st.ground_contact_since
    (_get_ground_contact_state thr i.snapshot) i.now
  let ml := update maybe_land_detector_trigger_time_us st.maybe_landed_since
    (_get_maybe_landed_state thr i.snapshot) i.now
  let ld := update land_detector_trigger_time_us st.landed_since
    (_get_landed_state thr i.snapshot ml.2) i.now
  let ff := update (freefall_trigger_window i.params) st.freefall_since
    (_get_freefall_state i.params i.snapshot) i.now
  ({ ground_contact_since := gc.1, maybe_landed_since := ml.1, landed_since := ld.1,
     freefall_since := ff.1, landed := ld.2,
     _landed_time := if ld.2 = true ∧ st.landed = false then some i.now else st._landed_time },
   { landed := ld.2, ground_contact := gc.2, maybe_landed := ml.2, freefall := ff.2,
     max_altitude := _get_max_altitude i.params })

/-- Outputs of a sequence of evaluations, one per input. -/
def run : DetectorState → List Input → List LandDetectedOutput
  | _, [] => []
  | st, i :: rest => (evaluate st i).2 :: run (evaluate st i).1 rest

/-- What the freefall criterion reads of an input: the specific-force sample,
the timestamp and the two freefall parameters. -/
def freefallView (i : Input) : ℚ × Nat × ℚ × ℚ :=
  (i.snapshot.acceleration, i.now, i.params.freefall_acc_threshold,
    i.params.freefall_trigger_time)

/-- An input with its freefall part (specific-force sample and the two
freefall parameters, in the live and in the widened set) blanked out: what is
left is the thrust, velocity, angular-rate, validity and control-mode inputs,
the other thresholds and the timestamp. -/
def eraseFreefall (i : Input) : Input :=
  { params := { i.params with freefall_acc_threshold := 0, freefall_trigger_time := 0 },
    wide := { i.wide with freefall_acc_threshold := 0, freefall_trigger_time := 0 },
    snapshot := { i.snapshot with acceleration := 0 },
    now := i.now }

/-- The three hierarchical flags of an output. -/
def groundFlags (o : LandDetectedOutput) : Bool × Bool × Bool :=
  (o.ground_contact, o.maybe_landed, o.landed)

/-- Parameter set used in the worked scenarios: landing descent speed 0.2,
throttle thresholds 0.12 and 0.08, hover throttle 0.5, throttle range 0.1,
freefall threshold 2, freefall trigger time 0. -/
def scenarioParams : Params :=
  { maxClimbRate := 1/2, maxVelocity := 3/2, maxRotation_rad_s := 1/3, minThrottle := 3/25,
    hoverThrottle := 1/2, throttleRange := 1/10, minManThrottle := 2/25,
    freefall_acc_threshold := 2, freefall_trigger_time := 0, altitude_max := 100,
    landSpeed := 1/5 }

/-- Snapshot of a vehicle at rest on the ground: thrust 0, vertical velocity
0.05, angular rate 0, horizontal velocity 0, specific force 9.81. -/
def restSnapshot : Snapshot :=
  { v_z_valid := true, v_xy_valid := true, vz := 1/20, v_horizontal := 0, thrust := 0,
    rotation := 0, flag_control_manual_enabled := false,
    flag_control_climb_rate_enabled := true, acceleration := 981/100 }

/-- The rest snapshot evaluated at time `t` with the scenario parameters. -/
def restAt (t : Nat) : Input :=
  { params := scenarioParams, wide := scenarioParams, snapshot := restSnapshot, now := t }

/-- The part of the detector state that the ground-contact, maybe-landed and
landed criteria use: everything but the freefall tracker. -/
def groundState (st : DetectorState) :
    Option Nat × Option Nat × Option Nat × Bool × Option Nat :=
  (st.ground_contact_since, st.maybe_landed_since, st.landed_since, st.landed, st._landed_time)

/-- A vehicle in free fall at hover thrust: the rest snapshot with specific
force 0.1 (below the threshold 2 of the scenario parameters) and the given
thrust, evaluated at time `t`. -/
def fallingAt (t : Nat) (thrust : ℚ) : Input :=
  { params := scenarioParams, wide := scenarioParams,
    snapshot := { restSnapshot with acceleration := 1/10, thrust := thrust }, now := t }

end land_detector

namespace INA226

/-! ## `ina226_main` (`src/drivers/power_monitor/ina226/ina226_main.cpp`) -/

/-- The fields of `BusCLIArguments` that `ina226_main` sets (lines 41-45,
50). The generic bus options that `getopt` consumes by itself live in other
fields, which `ina226_main` neither reads nor writes. -/
structure BusCLIArguments where
  /-- first constructor argument of `cli{true, false}` -/
  i2c_support : Bool
  /-- second constructor argument -/
  spi_support : Bool
  i2c_address : Int
  default_i2c_frequency : Int
  support_keep_running : Bool
  custom2 : Int
deriving DecidableEq, Repr

/-- The object built at line 61 from `MODULE_NAME`, the command-line
arguments and the device type. -/
structure BusInstanceIterator where
  module_name : String
  cli : BusCLIArguments
  devid_driver_index : Int
deriving DecidableEq, Repr

/-- What the loop `while ((ch = cli.getopt(argc, argv, "t:")) != EOF)` and
the call `cli.optarg()` after it observe on one argument vector: the option
characters returned before `EOF`, each with the value of `cli.optarg()` at
that moment, and the value of `cli.optarg()` after `EOF` (the verb, `none`
for a null pointer). An argument vector is finite, so is the scan. -/
structure GetoptScan where
  returned : List (Char × String)
  verb : Option String
deriving DecidableEq, Repr

/-- The host system around `ina226_main`, whose code is not among the sources:
the option scanner, `strtol(., NULL, 0)`, the three entry points of the driver
base class and the constants of `ina226.h` and of the build. -/
structure Host where
  getopt : List String → GetoptScan
  strtol : String → Int
  module_start : BusCLIArguments → BusInstanceIterator → Int
  module_stop : BusInstanceIterator → Int
  module_status : BusInstanceIterator → Int
  INA226_BASEADDR : Int
  DRV_POWER_DEVTYPE_INA226 : Int
  MODULE_NAME : String

/-- What `ina226_main` does that its caller can observe, in order. -/
inductive Event where
  | print_usage
  | module_start (cli : BusCLIArguments) (iterator : BusInstanceIterator)
  | module_stop (iterator : BusInstanceIterator)
  | module_status (iterator : BusInstanceIterator)
deriving DecidableEq, Repr

/-- The conversion `(int)` of a `long`: the value modulo 2^32, taken in
[-2^31, 2^31). -/
def toInt32 (x : Int) : Int := (x + 2 ^ 31) % 2 ^ 32 - 2 ^ 31

/-- The body of the option loop, lines 48-52: `case 't'` stores the battery
index, every other character changes nothing. -/
def handleOption (pf : Host) (cli : BusCLIArguments) (opt : Char × String) :
    BusCLIArguments :=
  if opt.1 = 't' then { cli with custom2 := toInt32 (pf.strtol opt.2) } else cli

/-- The command-line arguments as they stand after the option loop, lines
41-53. -/
def parsedCli (pf : Host) (argv : List String) : BusCLIArguments :=
  ((pf.getopt argv).returned).foldl (handleOption pf)
    { i2c_support := true, spi_support := false, i2c_address := pf.INA226_BASEADDR,
      default_i2c_frequency := 100000, support_keep_running := true, custom2 := 1 }

/-- The function `ina226_main`, lines 36-77: the value returned and the
observable events. -/
def ina226_main (pf : Host) (argv : List String) : Int × List Event :=
  let cli := parsedCli pf argv
  match (pf.getopt argv).verb with
  | none => (-1, [Event.print_usage])
  | some verb =>
    let iterator : BusInstanceIterator :=
      { module_name := pf.MODULE_NAME, cli := cli,
        devid_driver_index := pf.DRV_POWER_DEVTYPE_INA226 }
    if verb = "start" then (pf.module_start cli iterator, [Event.module_start cli iterator])
    else if verb = "stop" then (pf.module_stop iterator, [Event.module_stop iterator])
    else if verb = "status" then (pf.module_status iterator, [Event.module_status iterator])
    else (-1, [Event.print_usage])

/-- The battery indices handed to the driver: the `custom2` of every
`module_start` event. -/
def startedBatteryIndices : List Event → List Int
  | [] => []
  | Event.module_start cli _ :: rest => cli.custom2 :: startedBatteryIndices rest
  | _ :: rest => startedBatteryIndices rest

/-- Value of a string of decimal digits. -/
def decimalValue (s : String) : Int :=
  s.toList.foldl (fun acc c => 10 * acc + ((c.toNat : Int) - 48)) 0

/-- Option scan of the argument vectors `-t ARG ... VERB`. -/
def scanArgs : List String → GetoptScan
  | [] => { returned := [], verb := none }
  | [verb] => { returned := [], verb := some verb }
  | flag :: arg :: rest =>
    if flag = "-t" then
      { returned := ('t', arg) :: (scanArgs rest).returned, verb := (scanArgs rest).verb }
    else { returned := [], verb := some flag }

/-- A host for the worked command lines: options scanned by `scanArgs`,
numbers read by `decimalValue`, a driver whose start, stop and status return
0, 10 and 20. -/
def shellHost : Host :=
  { getopt := scanArgs, strtol := decimalValue,
    module_start := fun _ _ => 0, module_stop := fun _ => 10, module_status := fun _ => 20,
    INA226_BASEADDR := 65, DRV_POWER_DEVTYPE_INA226 := 210, MODULE_NAME := "ina226" }

end INA226

namespace GPSHelper

/-! ## `GPSHelper::setBaudrate`, termios build (`src/drivers/gps/gps_helper.cpp`) -/

/-- The speeds of `termios.h` the function selects, lines 148-156. -/
inductive Speed where
  | B9600 | B19200 | B38400 | B57600 | B115200
deriving DecidableEq, Repr

/-- The fields of `struct termios` the function touches, and the two line
speeds. -/
structure termios where
  c_iflag : Nat
  c_oflag : Nat
  c_lflag : Nat
  c_cflag : Nat
  ispeed : Option Speed
  ospeed : Option Speed
deriving DecidableEq, Repr

/-- The serial library and the constants of `termios.h` and `errno.h`, whose
code is not among the sources. A `cfset*speed` call returns its status and the
configuration it leaves. -/
structure SerialLib where
  tcgetattr : Int → termios
  cfsetispeed : termios → Speed → Int × termios
  cfsetospeed : termios → Speed → Int × termios
  tcsetattr : Int → termios → Int
  EINVAL : Int
  IGNBRK : Nat
  BRKINT : Nat
  ICRNL : Nat
  INLCR : Nat
  PARMRK : Nat
  INPCK : Nat
  ISTRIP : Nat
  IXON : Nat
  ECHO : Nat
  ECHONL : Nat
  ICANON : Nat
  IEXTEN : Nat
  ISIG : Nat
  CSTOPB : Nat
  PARENB : Nat

/-- The serial calls the function makes, with their arguments. -/
inductive SerialCall where
  | tcgetattr (fd : Int)
  | cfsetispeed (cfg : termios) (speed : Speed)
  | cfsetospeed (cfg : termios) (speed : Speed)
  | tcsetattr (fd : Int) (cfg : termios)
deriving DecidableEq, Repr

/-- The result of one call of `setBaudrate`: the value returned, the serial
calls made, in order, and the messages printed. -/
structure Outcome where
  ret : Int
  calls : List SerialCall
  messages : List String
deriving DecidableEq, Repr

/-- The operation `flags &= ~mask`: the bits of `mask` are cleared. -/
def clearBits (flags mask : Nat) : Nat := flags ^^^ (flags &&& mask)

/-- The `switch (baud)` of lines 147-161: the speed of a supported baud
rate, nothing for the `default:` branch. -/
def speedOf (baud : Nat) : Option Speed :=
  if baud = 9600 then some Speed.B9600
  else if baud = 19200 then some Speed.B19200
  else if baud = 38400 then some Speed.B38400
  else if baud = 57600 then some Speed.B57600
  else if baud = 115200 then some Speed.B115200
  else none

/-- The configuration handed to `cfsetispeed`, lines 168-203: what
`tcgetattr` read, with input processing, output processing, line processing,
the second stop bit and parity turned off. -/
def rawConfig (lib : SerialLib) (fd : Int) : termios :=
  let c := lib.tcgetattr fd
  { c with
    c_iflag := clearBits c.c_iflag (lib.IGNBRK ||| lib.BRKINT ||| lib.ICRNL ||| lib.INLCR |||
      lib.PARMRK ||| lib.INPCK ||| lib.ISTRIP ||| lib.IXON),
    c_oflag := 0,
    c_lflag := clearBits c.c_lflag (lib.ECHO ||| lib.ECHONL ||| lib.ICANON ||| lib.IEXTEN |||
      lib.ISIG),
    c_cflag := clearBits c.c_cflag (lib.CSTOPB ||| lib.PARENB) }

/-- The function `GPSHelper::setBaudrate(fd, baud)`, lines 112-223, in the
build that uses termios. -/
def setBaudrate (lib : SerialLib) (fd : Int) (baud : Nat) : Outcome :=
  match speedOf baud with
  | none => { ret := -lib.EINVAL, calls := [], messages := ["ERR: unknown baudrate: " ++ toString baud] }
  | some speed =>
    let uart_config := rawConfig lib fd
    let r1 := lib.cfsetispeed uart_config speed
    if r1.1 < 0 then
      { ret := -1,
        calls := [SerialCall.tcgetattr fd, SerialCall.cfsetispeed uart_config speed],
        messages := ["ERR: " ++ toString r1.1 ++ " (cfsetispeed)"] }
    else
      let r2 := lib.cfsetospeed r1.2 speed
      if r2.1 < 0 then
        { ret := -1,
          calls := [SerialCall.tcgetattr fd, SerialCall.cfsetispeed uart_config speed,
            SerialCall.cfsetospeed r1.2 speed],
          messages := ["ERR: " ++ toString r2.1 ++ " (cfsetospeed)"] }
      else
        let r3 := lib.tcsetattr fd r2.2
        if r3 < 0 then
          { ret := -1,
            calls := [SerialCall.tcgetattr fd, SerialCall.cfsetispeed uart_config speed,
              SerialCall.cfsetospeed r1.2 speed, SerialCall.tcsetattr fd r2.2],
            messages := ["ERR: " ++ toString r3 ++ " (tcsetattr)"] }
        else
          { ret := 0,
            calls := [SerialCall.tcgetattr fd, SerialCall.cfsetispeed uart_config speed,
              SerialCall.cfsetospeed r1.2 speed, SerialCall.tcsetattr fd r2.2],
            messages := [] }

/-- The status `cfsetispeed` returns in a call of `setBaudrate` with a
supported baud rate. -/
def ispeedStatus (lib : SerialLib) (fd : Int) (speed : Speed) : Int :=
  (lib.cfsetispeed (rawConfig lib fd) speed).1

/-- The status `cfsetospeed` returns when it is reached. -/
def ospeedStatus (lib : SerialLib) (fd : Int) (speed : Speed) : Int :=
  (lib.cfsetospeed (lib.cfsetispeed (rawConfig lib fd) speed).2 speed).1

/-- The status `tcsetattr` returns when it is reached. -/
def setattrStatus (lib : SerialLib) (fd : Int) (speed : Speed) : Int :=
  lib.tcsetattr fd (lib.cfsetospeed (lib.cfsetispeed (rawConfig lib fd) speed).2 speed).2

/-- A call is one of `cfsetospeed`, `tcsetattr`. -/
def SerialCall.afterIspeed : SerialCall → Bool
  | SerialCall.cfsetospeed _ _ => true
  | SerialCall.tcsetattr _ _ => true
  | _ => false

/-- A call is `tcsetattr`. -/
def SerialCall.isSetattr : SerialCall → Bool
  | SerialCall.tcsetattr _ _ => true
  | _ => false

/-- A serial library with the constants of Linux, whose port is in cooked
mode before the call; the statuses of `cfsetispeed`, `cfsetospeed` and
`tcsetattr` are given. -/
def stubLib (s1 s2 s3 : Int) : SerialLib :=
  { tcgetattr := fun _ =>
      { c_iflag := 1280, c_oflag := 5, c_lflag := 35387, c_cflag := 189,
        ispeed := none, ospeed := none },
    cfsetispeed := fun c sp => (s1, { c with ispeed := some sp }),
    cfsetospeed := fun c sp => (s2, { c with ospeed := some sp }),
    tcsetattr := fun _ _ => s3,
    EINVAL := 22,
    IGNBRK := 1, BRKINT := 2, ICRNL := 256, INLCR := 64, PARMRK := 8, INPCK := 16,
    ISTRIP := 32, IXON := 1024, ECHO := 8, ECHONL := 64, ICANON := 2,
    IEXTEN := 32768, ISIG := 1, CSTOPB := 64, PARENB := 256 }

end GPSHelper

namespace FlightTaskManualStabilized

/-! ## `FlightTaskManualStabilized.cpp` -/

/-- A `matrix::Vector3f`, with rational components. -/
structure Vector3f where
  x : ℚ
  y : ℚ
  z : ℚ
deriving DecidableEq

/-- A `matrix::Vector2f`. -/
structure Vector2f where
  x : ℚ
  y : ℚ
deriving DecidableEq

/-- A `matrix::Quatf`. -/
structure Quatf where
  w : ℚ
  x : ℚ
  y : ℚ
  z : ℚ
deriving DecidableEq

/-- The functions of the matrix and math libraries the task calls, whose code
is not among the sources (they involve square roots and trigonometry):
`Vector2f::norm`, the quaternion of `AxisAnglef(x, y, z)`, the quaternion of
`AxisAnglef(axis, angle)`, `Quatf::conjugate(v)`, the yaw `Eulerf(q)(2)` =
`Eulerf(q).psi()`, and `math::radians`. -/
structure MatrixLib where
  norm : Vector2f → ℚ
  axisAngle : ℚ → ℚ → ℚ → Quatf
  axisAngleOf : Vector3f → ℚ → Quatf
  conjugate : Quatf → Vector3f → Vector3f
  eulerYaw : Quatf → ℚ
  radians : ℚ → ℚ

/-- The external yaw handler as the task sees it: `is_active()` and
`get_weathervane_yawrate()`. -/
structure YawHandler where
  is_active : Bool
  weathervane_yawrate : ℚ

/-- The members of the task, the topics and the parameters that the
functions of the file read or write; `prev_yaw_offset` is the function-local
`static bool` of `_updateThrustSetpoints` (line 136), `log` the warnings
printed so far. -/
structure Task where
  _sticks : Fin 4 → ℚ
  _sticks_expo : Fin 4 → ℚ
  _yaw : ℚ
  _yaw_setpoint : ℚ
  _yawspeed_setpoint : ℚ
  _yaw_offset_prev : ℚ
  _throttle : ℚ
  _thrust_setpoint : Vector3f
  _constraints_tilt : ℚ
  _heading_reset_counter : Nat
  /-- the attitude topic field `_sub_attitude->get().quat_reset_counter` -/
  quat_reset_counter : Nat
  /-- the attitude topic field `_sub_attitude->get().delta_q_reset` -/
  delta_q_reset : Quatf
  /-- the manual control field `_sub_manual_control_setpoint->get().aux1` -/
  aux1 : ℚ
  /-- the pointer `_ext_yaw_handler`, `none` for a null pointer -/
  _ext_yaw_handler : Option YawHandler
  _throttle_hover : ℚ
  _throttle_min_stabilized : ℚ
  _throttle_max : ℚ
  _yaw_rate_scaling : ℚ
  prev_yaw_offset : Bool
  log : List String

/-- The constant `FLT_EPSILON` of `float.h`, 2^-23. -/
def FLT_EPSILON : ℚ := 1 / 8388608

/-- The constant `M_PI_F`, the `float` nearest to pi. -/
def M_PI_F : ℚ := 13176795 / 4194304

/-- The function `math::constrain(val, min_val, max_val)`. -/
def constrain (val min_val max_val : ℚ) : ℚ :=
  if val < min_val then min_val else if val > max_val then max_val else val

/-- The function `_throttleCurve`, lines 174-186, of the stick `_sticks(2)`
and the parameters `_throttle_hover`, `_throttle_min_stabilized`,
`_throttle_max`: "scale stick z from [-1,1] to [min thrust, max thrust] with
hover throttle at 0.5 stick". -/
def _throttleCurve (sticks_2 throttle_hover throttle_min_stabilized throttle_max : ℚ) : ℚ :=
  let throttle := -((sticks_2 - 1) * (1 / 2))
  if throttle < 1 / 2 then
    (throttle_hover - throttle_min_stabilized) / (1 / 2) * throttle + throttle_min_stabilized
  else
    (throttle_max - throttle_hover) / (1 / 2) * (throttle - 1) + throttle_max

/-- The function `_scaleSticks`, lines 62-68. -/
def _scaleSticks (m : MatrixLib) (s : Task) : Task :=
  { s with
    _yawspeed_setpoint := s._sticks_expo 3 * m.radians s._yaw_rate_scaling,
    _throttle := _throttleCurve (s._sticks 2) s._throttle_hover s._throttle_min_stabilized
      s._throttle_max }

/-- The function `_updateHeadingSetpoints`, lines 70-99. -/
def _updateHeadingSetpoints (m : MatrixLib) (s : Task) : Task :=
  let s1 : Task :=
    if |s._yawspeed_setpoint| > FLT_EPSILON then
      { s with _yaw_setpoint := s._yaw - s._yaw_offset_prev }
    else
      let held : Task := { s with _yaw_setpoint := s._yaw_setpoint - s._yaw_offset_prev }
      if held.quat_reset_counter ≠ held._heading_reset_counter then
        { held with
          _yaw_setpoint := held._yaw_setpoint + m.eulerYaw held.delta_q_reset,
          _heading_reset_counter := held.quat_reset_counter }
      else held
  let s2 : Task :=
    match s1._ext_yaw_handler with
    | none => s1
    | some h =>
      if h.is_active = true then
        { s1 with
          _yaw_setpoint := s1._yaw - s1._yaw_offset_prev,
          _yawspeed_setpoint := s1._yawspeed_setpoint + h.weathervane_yawrate }
      else s1
  { s2 with _yaw_offset_prev := 0 }

/-- The text of `PX4_WARN("using yaw offset: %i", (int)use_yaw_offset)`. -/
def yawOffsetWarning (use_yaw_offset : Bool) : String :=
  "using yaw offset: " ++ (if use_yaw_offset = true then "1" else "0")

/-- A vector times a scalar. -/
def Vector3f.scale (v : Vector3f) (k : ℚ) : Vector3f :=
  { x := v.x * k, y := v.y * k, z := v.z * k }

/-- The function `_updateThrustSetpoints`, lines 101-158. -/
def _updateThrustSetpoints (m : MatrixLib) (s : Task) : Task :=
  let tilt_max := constrain s._constraints_tilt (1 / 1000) M_PI_F
  let x := s._sticks 0 * tilt_max
  let y := s._sticks 1 * tilt_max
  let v : Vector2f := { x := y, y := -x }
  let v_norm := m.norm v
  let v : Vector2f :=
    if v_norm > tilt_max then
      { x := v.x * (tilt_max / v_norm), y := v.y * (tilt_max / v_norm) }
    else v
  let q_sp := m.axisAngle v.x v.y 0
  let thrust := (m.conjugate q_sp { x := 0, y := 0, z := -1 }).scale (max s._throttle (1 / 10000))
  let q := m.axisAngleOf { x := 0, y := 0, z := 1 } s._yaw_setpoint
  let thrust := m.conjugate q thrust
  let use_yaw_offset : Bool := decide (s.aux1 > 1 / 2)
  let changed : Bool := use_yaw_offset != s.prev_yaw_offset
  let yaw_offset := m.eulerYaw q_sp
  { s with
    _thrust_setpoint := thrust,
    prev_yaw_offset := if changed = true then use_yaw_offset else s.prev_yaw_offset,
    log := if changed = true then s.log ++ [yawOffsetWarning use_yaw_offset] else s.log,
    _yaw_setpoint := if use_yaw_offset = true then s._yaw_setpoint + yaw_offset
      else s._yaw_setpoint,
    _yaw_offset_prev := if use_yaw_offset = true then yaw_offset else s._yaw_offset_prev }

/-- The function `_updateSetpoints`, lines 168-172. -/
def _updateSetpoints (m : MatrixLib) (s : Task) : Task :=
  _updateThrustSetpoints m (_updateHeadingSetpoints m s)

/-- The function `update`, lines 188-194: the new state, the value returned
being `true`. -/
def update (m : MatrixLib) (s : Task) : Task × Bool :=
  (_updateSetpoints m (_scaleSticks m s), true)

/-- A matrix library for worked examples: each function returns a fixed
combination of its arguments. -/
def stubMatrix : MatrixLib :=
  { norm := fun v => |v.x| + |v.y|,
    axisAngle := fun x y z => { w := 1, x := x, y := y, z := z },
    axisAngleOf := fun a k => { w := 1, x := a.x * k, y := a.y * k, z := a.z * k },
    conjugate := fun q v => { x := v.x + q.x, y := v.y + q.y, z := v.z + q.z },
    eulerYaw := fun q => q.x * q.y,
    radians := fun d => d * (355 / 113) / 180 }

/-- A task in stabilized flight: sticks at (0.5, 0.5, 0, 0), the aux1 switch
at `aux1`, the stored logging flag `flag`. -/
def sampleTask (aux1 : ℚ) (flag : Bool) : Task :=
  { _sticks := fun k => if k.val < 2 then 1 / 2 else 0,
    _sticks_expo := fun k => if k.val < 2 then 1 / 2 else 0,
    _yaw := 1, _yaw_setpoint := 1, _yawspeed_setpoint := 0, _yaw_offset_prev := 0,
    _throttle := 1 / 2, _thrust_setpoint := { x := 0, y := 0, z := -1 / 2 },
    _constraints_tilt := 3 / 5, _heading_reset_counter := 0, quat_reset_counter := 0,
    delta_q_reset := { w := 1, x := 0, y := 0, z := 0 }, aux1 := aux1,
    _ext_yaw_handler := none, _throttle_hover := 1 / 2, _throttle_min_stabilized := 2 / 25,
    _throttle_max := 1, _yaw_rate_scaling := 150, prev_yaw_offset := flag, log := [] }

/-- What the surroundings of the task set before an update cycle: the sticks,
the estimated yaw, the yaw speed setpoint and throttle left by `_scaleSticks`,
the tilt constraint, the attitude topic, the aux1 switch and the external yaw
handler. The members `_yaw_setpoint`, `_yaw_offset_prev` and
`_heading_reset_counter` belong to the task and are written by its own
functions only. -/
structure CycleInput where
  _sticks : Fin 4 → ℚ
  _sticks_expo : Fin 4 → ℚ
  _yaw : ℚ
  _yawspeed_setpoint : ℚ
  _throttle : ℚ
  _constraints_tilt : ℚ
  quat_reset_counter : Nat
  delta_q_reset : Quatf
  aux1 : ℚ
  _ext_yaw_handler : Option YawHandler

/-- The task as an update cycle finds it: the inputs of the cycle in place,
the members of the task as the previous cycle left them. -/
def setInputs (i : CycleInput) (s : Task) : Task :=
  { s with
    _sticks := i._sticks, _sticks_expo := i._sticks_expo, _yaw := i._yaw,
    _yawspeed_setpoint := i._yawspeed_setpoint, _throttle := i._throttle,
    _constraints_tilt := i._constraints_tilt, quat_reset_counter := i.quat_reset_counter,
    delta_q_reset := i.delta_q_reset, aux1 := i.aux1, _ext_yaw_handler := i._ext_yaw_handler }

/-- No more rotation is commanded and nothing else moves the heading: the
yaw speed setpoint is within `FLT_EPSILON` of 0, the attitude's
`quat_reset_counter` equals `_heading_reset_counter`, and no external yaw
handler is active. -/
def holdsHeading (s : Task) : Prop :=
  |s._yawspeed_setpoint| ≤ FLT_EPSILON ∧ s.quat_reset_counter = s._heading_reset_counter ∧
  ∀ h, s._ext_yaw_handler = some h → h.is_active = false

/-- One update cycle, `_updateSetpoints` (lines 168-172) on the inputs of the
cycle: `_updateHeadingSetpoints` followed by `_updateThrustSetpoints`. -/
def cycle (m : MatrixLib) (s : Task) (i : CycleInput) : Task :=
  _updateSetpoints m (setInputs i s)

/-- The task after a sequence of update cycles. -/
def runCycles (m : MatrixLib) : Task → List CycleInput → Task
  | s, [] => s
  | s, i :: rest => runCycles m (cycle m s i) rest

/-- The `_yaw_setpoint` that `_updateHeadingSetpoints` leaves in each cycle
of a sequence, before `_updateThrustSetpoints` runs. -/
def headingSetpoints (m : MatrixLib) : Task → List CycleInput → List ℚ
  | _, [] => []
  | s, i :: rest =>
    (_updateHeadingSetpoints m (setInputs i s))._yaw_setpoint ::
      headingSetpoints m (cycle m s i) rest

/-- Every cycle of the sequence finds the task holding its heading. -/
def HoldRun (m : MatrixLib) : Task → List CycleInput → Prop
  | _, [] => True
  | s, i :: rest => holdsHeading (setInputs i s) ∧ HoldRun m (cycle m s i) rest

/-- Inputs of a cycle with the sticks at rest in yaw, rolled and pitched by
`tilt`, and the aux1 switch at `aux1`. -/
def stickInput (tilt aux1 : ℚ) : CycleInput :=
  { _sticks := fun k => if k.val < 2 then tilt else 0,
    _sticks_expo := fun k => if k.val < 2 then tilt else 0,
    _yaw := 3, _yawspeed_setpoint := 0, _throttle := 1 / 2, _constraints_tilt := 3 / 5,
    quat_reset_counter := 0, delta_q_reset := { w := 1, x := 0, y := 0, z := 0 },
    aux1 := aux1, _ext_yaw_handler := none }

end FlightTaskManualStabilized

/-! # Theorems -/

namespace land_detector

/-! ## Trigger-time constants -/

/-- C1: the fixed time windows of the multirotor land detector are 350 ms
(ground contact), 250 ms (maybe landed), 300 ms (landed) and 2 s (post-landing
interval with wider thresholds), in microseconds; the maybe-landed window is
strictly shorter than the landed window, which is strictly shorter than the
ground-contact window. -/
theorem trigger_windows_values :
    ground_contact_trigger_time_us = 350 * 1000 ∧
    maybe_land_detector_trigger_time_us = 250 * 1000 ∧
    land_detector_trigger_time_us = 300 * 1000 ∧
    land_detector_land_phase_time_us = 2 * 1000000 ∧
    maybe_land_detector_trigger_time_us < land_detector_trigger_time_us ∧
    land_detector_trigger_time_us < ground_contact_trigger_time_us ∧
    land_detector_land_phase_time_us ≤ UINT64_MAX := by
  decide

/-! ## Freefall independence -/

theorem evaluate_freefall_eq (st1 st2 : DetectorState) (i j : Input)
    (hst : st1.freefall_since = st2.freefall_since) (hv : freefallView i = freefallView j) :
    (evaluate st1 i).2.freefall = (evaluate st2 j).2.freefall ∧
    (evaluate st1 i).1.freefall_since = (evaluate st2 j).1.freefall_since := by
  simp only [freefallView, Prod.mk.injEq] at hv
  obtain ⟨ha, hn, hthr, htt⟩ := hv
  simp only [evaluate, freefall_trigger_window, _get_freefall_state, hst, ha, hn, hthr, htt,
    and_self]

theorem evaluate_erase (st : DetectorState) (i : Input) :
    groundFlags (evaluate st i).2 = groundFlags (evaluate st (eraseFreefall i)).2 ∧
    groundState (evaluate st i).1 = groundState (evaluate st (eraseFreefall i)).1 := by
  have hn : (eraseFreefall i).now = i.now := rfl
  simp only [groundFlags, groundState, evaluate, thresholds, hn]
  by_cases h : inLandPhase st i.now = true
  · simp only [if_pos h]
    exact ⟨rfl, rfl⟩
  · simp only [if_neg h]
    exact ⟨rfl, rfl⟩

theorem evaluate_ground_congr (st1 st2 : DetectorState) (i : Input)
    (hst : groundState st1 = groundState st2) :
    groundFlags (evaluate st1 i).2 = groundFlags (evaluate st2 i).2 ∧
    groundState (evaluate st1 i).1 = groundState (evaluate st2 i).1 := by
  simp only [groundState, Prod.mk.injEq] at hst
  obtain ⟨h1, h2, h3, h4, h5⟩ := hst
  simp only [groundFlags, groundState, evaluate, thresholds, inLandPhase, h1, h2, h3, h4, h5,
    and_self]

theorem evaluate_ground_eq (st1 st2 : DetectorState) (i j : Input)
    (hst : groundState st1 = groundState st2) (hv : eraseFreefall i = eraseFreefall j) :
    groundFlags (evaluate st1 i).2 = groundFlags (evaluate st2 j).2 ∧
    groundState (evaluate st1 i).1 = groundState (evaluate st2 j).1 := by
  have a := evaluate_erase st1 i
  have b := evaluate_erase st2 j
  have c := evaluate_ground_congr st1 st2 (eraseFreefall i) hst
  rw [hv] at a c
  exact ⟨a.1.trans (c.1.trans b.1.symm), a.2.trans (c.2.trans b.2.symm)⟩

theorem run_freefall_eq (xs : List Input) : ∀ (ys : List Input) (st1 st2 : DetectorState),
    st1.freefall_since = st2.freefall_since → xs.map freefallView = ys.map freefallView →
    (run st1 xs).map (fun o => o.freefall) = (run st2 ys).map (fun o => o.freefall) := by
  induction xs with
  | nil =>
    intro ys st1 st2 _ hv
    cases ys with
    | nil => rfl
    | cons y ys => simp at hv
  | cons x xs ih =>
    intro ys st1 st2 hst hv
    cases ys with
    | nil => simp at hv
    | cons y ys =>
      simp only [List.map_cons, List.cons.injEq] at hv
      have h := evaluate_freefall_eq st1 st2 x y hst hv.1
      simp only [run, List.map_cons, h.1]
      rw [ih ys _ _ h.2 hv.2]

theorem run_ground_eq (xs : List Input) : ∀ (ys : List Input) (st1 st2 : DetectorState),
    groundState st1 = groundState st2 → xs.map eraseFreefall = ys.map eraseFreefall →
    (run st1 xs).map groundFlags = (run st2 ys).map groundFlags := by
  induction xs with
  | nil =>
    intro ys st1 st2 _ hv
    cases ys with
    | nil => rfl
    | cons y ys => simp at hv
  | cons x xs ih =>
    intro ys st1 st2 hst hv
    cases ys with
    | nil => simp at hv
    | cons y ys =>
      simp only [List.map_cons, List.cons.injEq] at hv
      have h := evaluate_ground_eq st1 st2 x y hst hv.1
      simp only [run, List.map_cons, h.1]
      rw [ih ys _ _ h.2 hv.2]

/-- C4: freefall independence. Two runs of the multirotor detector whose
freefall trackers start equal and that are fed the same specific-force
samples, timestamps and freefall parameters, with arbitrary other inputs,
parameters and states, give the same freefall output at every evaluation; and
two runs that agree on everything but the freefall input (specific-force
samples, freefall parameters, freefall tracker state) give the same
ground_contact, maybe_landed and landed outputs at every evaluation. -/
theorem freefall_independence (st1 st2 : DetectorState) (xs ys : List Input) :
    (st1.freefall_since = st2.freefall_since → xs.map freefallView = ys.map freefallView →
      (run st1 xs).map (fun o => o.freefall) = (run st2 ys).map (fun o => o.freefall)) ∧
    (groundState st1 = groundState st2 → xs.map eraseFreefall = ys.map eraseFreefall →
      (run st1 xs).map groundFlags = (run st2 ys).map groundFlags) :=
  ⟨run_freefall_eq xs ys st1 st2, run_ground_eq xs ys st1 st2⟩

/-- C4 witness: a run at rest on the ground and a run at hover thrust, both
fed the specific force 0.1 at 0 ms and 20 ms, report the same freefall
outputs; and the rest run reports the same three ground flags whether it is
fed the specific force 9.81 or 0.1. -/
theorem freefall_independence_witness :
    (run DetectorState.init [fallingAt 0 0, fallingAt 20000 0]).map (fun o => o.freefall) =
      (run DetectorState.init [fallingAt 0 (1/2), fallingAt 20000 (1/2)]).map
        (fun o => o.freefall) ∧
    (run DetectorState.init [restAt 0, restAt 20000]).map groundFlags =
      (run DetectorState.init [fallingAt 0 0, fallingAt 20000 0]).map groundFlags :=
  ⟨(freefall_independence DetectorState.init DetectorState.init
      [fallingAt 0 0, fallingAt 20000 0] [fallingAt 0 (1/2), fallingAt 20000 (1/2)]).1 rfl rfl,
   (freefall_independence DetectorState.init DetectorState.init
      [restAt 0, restAt 20000] [fallingAt 0 0, fallingAt 20000 0]).2 rfl rfl⟩

end land_detector

namespace INA226

/-! ## Verb dispatch and battery index of `ina226_main` -/

/-- C6: verb dispatch of `ina226_main`. For every argument vector: if no
verb remains after option parsing, the usage is printed and -1 returned; if
the verb is exactly "start", "stop" or "status", the result of `module_start`,
`module_stop` or `module_status` is returned and that entry point is the only
thing invoked; for every other verb the usage is printed and -1 returned. -/
theorem ina226_main_dispatch (pf : Host) (argv : List String) :
    ((pf.getopt argv).verb = none → ina226_main pf argv = (-1, [Event.print_usage])) ∧
    ((pf.getopt argv).verb = some "start" →
      ina226_main pf argv =
        (pf.module_start (parsedCli pf argv)
            { module_name := pf.MODULE_NAME, cli := parsedCli pf argv,
              devid_driver_index := pf.DRV_POWER_DEVTYPE_INA226 },
          [Event.module_start (parsedCli pf argv)
            { module_name := pf.MODULE_NAME, cli := parsedCli pf argv,
              devid_driver_index := pf.DRV_POWER_DEVTYPE_INA226 }])) ∧
    ((pf.getopt argv).verb = some "stop" →
      ina226_main pf argv =
        (pf.module_stop
            { module_name := pf.MODULE_NAME, cli := parsedCli pf argv,
              devid_driver_index := pf.DRV_POWER_DEVTYPE_INA226 },
          [Event.module_stop
            { module_name := pf.MODULE_NAME, cli := parsedCli pf argv,
              devid_driver_index := pf.DRV_POWER_DEVTYPE_INA226 }])) ∧
    ((pf.getopt argv).verb = some "status" →
      ina226_main pf argv =
        (pf.module_status
            { module_name := pf.MODULE_NAME, cli := parsedCli pf argv,
              devid_driver_index := pf.DRV_POWER_DEVTYPE_INA226 },
          [Event.module_status
            { module_name := pf.MODULE_NAME, cli := parsedCli pf argv,
              devid_driver_index := pf.DRV_POWER_DEVTYPE_INA226 }])) ∧
    (∀ verb, (pf.getopt argv).verb = some verb → verb ≠ "start" → verb ≠ "stop" →
      verb ≠ "status" → ina226_main pf argv = (-1, [Event.print_usage])) := by
  refine ⟨?_, ?_, ?_, ?_, ?_⟩
  · intro h
    simp [ina226_main, h]
  · intro h
    simp [ina226_main, h]
  · intro h
    have h1 : ¬ ("stop" = "start") := by decide
    simp [ina226_main, h, h1]
  · intro h
    have h1 : ¬ ("status" = "start") := by decide
    have h2 : ¬ ("status" = "stop") := by decide
    simp [ina226_main, h, h1, h2]
  · intro verb h h1 h2 h3
    simp [ina226_main, h, h1, h2, h3]

/-- C6 witness: the command lines `ina226`, `ina226 -t 2 start`, `ina226
stop`, `ina226 status` and `ina226 reset` on the worked host. -/
theorem ina226_main_dispatch_witness :
    ina226_main shellHost [] = (-1, [Event.print_usage]) ∧
    (ina226_main shellHost ["-t", "2", "start"]).1 = 0 ∧
    startedBatteryIndices (ina226_main shellHost ["-t", "2", "start"]).2 = [2] ∧
    (ina226_main shellHost ["stop"]).1 = 10 ∧
    (ina226_main shellHost ["status"]).1 = 20 ∧
    ina226_main shellHost ["reset"] = (-1, [Event.print_usage]) :=
  ⟨(ina226_main_dispatch shellHost []).1 rfl,
   by rw [(ina226_main_dispatch shellHost ["-t", "2", "start"]).2.1 (by decide)]; rfl,
   by rw [(ina226_main_dispatch shellHost ["-t", "2", "start"]).2.1 (by decide)]; decide,
   by rw [(ina226_main_dispatch shellHost ["stop"]).2.2.1 (by decide)]; rfl,
   by rw [(ina226_main_dispatch shellHost ["status"]).2.2.2.1 (by decide)]; rfl,
   (ina226_main_dispatch shellHost ["reset"]).2.2.2.2 "reset" (by decide) (by decide)
     (by decide) (by decide)⟩

/-- C7 (the code at the failing input): the command line `ina226 -t 5 start`
calls `module_start` with the battery index `cli.custom2 = 5`, outside the
documented range 1..2; without `-t` the index is 1. -/
theorem battery_index_out_of_range :
    startedBatteryIndices (ina226_main shellHost ["-t", "5", "start"]).2 = [5] ∧
    ¬ (1 ≤ (5 : Int) ∧ (5 : Int) ≤ 2) ∧
    startedBatteryIndices (ina226_main shellHost ["start"]).2 = [1] := by
  decide

/-- Whatever the argument of a single `-t` option, `module_start` receives
what `strtol` read of it, converted to `int`: no range check is made. -/
theorem battery_index_unchecked (pf : Host) (argv : List String) (arg : String)
    (h : pf.getopt argv = { returned := [('t', arg)], verb := some "start" }) :
    startedBatteryIndices (ina226_main pf argv).2 = [toInt32 (pf.strtol arg)] := by
  simp [ina226_main, parsedCli, handleOption, h, startedBatteryIndices]

end INA226

namespace FlightTaskManualStabilized

/-! ## Throttle curve -/

/-- C10: the static flag `prev_yaw_offset` of `_updateThrustSetpoints` only
serves one-shot change logging. Two executions from states that differ at most
in the flag leave the same `_thrust_setpoint`, `_yaw_setpoint` and
`_yaw_offset_prev`; the warning is logged (once, at the end of the log) exactly
when `aux1 > 0.5` differs from the stored flag; afterwards the stored flag
equals `aux1 > 0.5`; and a call whose stored flag already equals its `aux1 >
0.5` logs nothing. -/
theorem prev_yaw_offset_only_logs (m : MatrixLib) (s : Task) (flag : Bool) :
    (_updateThrustSetpoints m { s with prev_yaw_offset := flag })._thrust_setpoint =
      (_updateThrustSetpoints m s)._thrust_setpoint ∧
    (_updateThrustSetpoints m { s with prev_yaw_offset := flag })._yaw_setpoint =
      (_updateThrustSetpoints m s)._yaw_setpoint ∧
    (_updateThrustSetpoints m { s with prev_yaw_offset := flag })._yaw_offset_prev =
      (_updateThrustSetpoints m s)._yaw_offset_prev ∧
    ((decide (s.aux1 > 1 / 2) ≠ s.prev_yaw_offset →
      (_updateThrustSetpoints m s).log =
        s.log ++ [yawOffsetWarning (decide (s.aux1 > 1 / 2))]) ∧
     (decide (s.aux1 > 1 / 2) = s.prev_yaw_offset → (_updateThrustSetpoints m s).log = s.log)) ∧
    (_updateThrustSetpoints m s).prev_yaw_offset = decide (s.aux1 > 1 / 2) ∧
    (_updateThrustSetpoints m (_updateThrustSetpoints m s)).log =
      (_updateThrustSetpoints m s).log := by
  have hflag : ∀ t : Task, (_updateThrustSetpoints m t).prev_yaw_offset =
      decide (t.aux1 > 1 / 2) := by
    intro t
    show (if (decide (t.aux1 > 1 / 2) != t.prev_yaw_offset) = true then decide (t.aux1 > 1 / 2)
      else t.prev_yaw_offset) = decide (t.aux1 > 1 / 2)
    cases decide (t.aux1 > 1 / 2) <;> cases t.prev_yaw_offset <;> rfl
  have hsame : ∀ t : Task, decide (t.aux1 > 1 / 2) = t.prev_yaw_offset →
      (_updateThrustSetpoints m t).log = t.log := by
    intro t h
    show (if (decide (t.aux1 > 1 / 2) != t.prev_yaw_offset) = true then
      t.log ++ [yawOffsetWarning (decide (t.aux1 > 1 / 2))] else t.log) = t.log
    rw [h]
    simp
  refine ⟨rfl, rfl, rfl, ⟨?_, hsame s⟩, hflag s, ?_⟩
  · intro h
    show (if (decide (s.aux1 > 1 / 2) != s.prev_yaw_offset) = true then
      s.log ++ [yawOffsetWarning (decide (s.aux1 > 1 / 2))] else s.log) = _
    have : (decide (s.aux1 > 1 / 2) != s.prev_yaw_offset) = true := by
      simpa [bne_iff_ne] using h
    rw [if_pos this]
  · apply hsame
    rw [hflag s]
    rfl

/-- C10 witness: the sample task with the switch on, once with the stored
flag off and once with it on: same setpoints, one warning against none. -/
theorem prev_yaw_offset_only_logs_witness :
    (_updateThrustSetpoints stubMatrix (sampleTask 1 true))._yaw_setpoint =
      (_updateThrustSetpoints stubMatrix (sampleTask 1 false))._yaw_setpoint ∧
    (_updateThrustSetpoints stubMatrix (sampleTask 1 false)).log = ["using yaw offset: 1"] ∧
    (_updateThrustSetpoints stubMatrix (sampleTask 1 true)).log = [] :=
  ⟨(prev_yaw_offset_only_logs stubMatrix (sampleTask 1 false) true).2.1,
   by
    have h := (prev_yaw_offset_only_logs stubMatrix (sampleTask 1 false) true).2.2.2.1.1
    have hne : decide ((sampleTask 1 false).aux1 > 1 / 2) ≠ (sampleTask 1 false).prev_yaw_offset := by
      simp [sampleTask]
      norm_num
    rw [h hne]
    simp [sampleTask, yawOffsetWarning]
    norm_num
    decide,
   by
    have h := (prev_yaw_offset_only_logs stubMatrix (sampleTask 1 true) true).2.2.2.1.2
    have he : decide ((sampleTask 1 true).aux1 > 1 / 2) = (sampleTask 1 true).prev_yaw_offset := by
      simp [sampleTask]
      norm_num
    rw [h he]
    rfl⟩

end FlightTaskManualStabilized

namespace GPSHelper

/-! ## Result of `setBaudrate` -/

theorem speedOf_none_iff (baud : Nat) :
    speedOf baud = none ↔ baud ∉ [9600, 19200, 38400, 57600, 115200] := by
  unfold speedOf
  simp only [List.mem_cons, List.mem_singleton, List.not_mem_nil, or_false, not_or]
  constructor
  · intro h
    split_ifs at h with h1 h2 h3 h4 h5
    exact ⟨h1, h2, h3, h4, h5⟩
  · rintro ⟨h1, h2, h3, h4, h5⟩
    simp [h1, h2, h3, h4, h5]

/-- C9: result of `GPSHelper::setBaudrate` (termios build). It returns
`-EINVAL` having made no serial call (no `tcgetattr`, `cfsetispeed`,
`cfsetospeed`, `tcsetattr`) iff the baud rate is none of 9600, 19200, 38400,
57600, 115200 (and, `EINVAL` being greater than 1, it returns `-EINVAL` only
then); for a supported baud rate it returns 0 when `cfsetispeed`,
`cfsetospeed` and `tcsetattr` all return >= 0, and -1 as soon as one of them
returns a negative value, the later calls not being made. -/
theorem setBaudrate_result (lib : SerialLib) (fd : Int) (baud : Nat) :
    (((setBaudrate lib fd baud).ret = -lib.EINVAL ∧ (setBaudrate lib fd baud).calls = []) ↔
      baud ∉ [9600, 19200, 38400, 57600, 115200]) ∧
    (1 < lib.EINVAL →
      ((setBaudrate lib fd baud).ret = -lib.EINVAL ↔
        baud ∉ [9600, 19200, 38400, 57600, 115200])) ∧
    (baud ∈ [9600, 19200, 38400, 57600, 115200] →
      ∃ speed, speedOf baud = some speed ∧
        (0 ≤ ispeedStatus lib fd speed → 0 ≤ ospeedStatus lib fd speed →
          0 ≤ setattrStatus lib fd speed → (setBaudrate lib fd baud).ret = 0) ∧
        (ispeedStatus lib fd speed < 0 →
          (setBaudrate lib fd baud).ret = -1 ∧
          ∀ c ∈ (setBaudrate lib fd baud).calls, c.afterIspeed = false) ∧
        (0 ≤ ispeedStatus lib fd speed → ospeedStatus lib fd speed < 0 →
          (setBaudrate lib fd baud).ret = -1 ∧
          ∀ c ∈ (setBaudrate lib fd baud).calls, c.isSetattr = false) ∧
        (0 ≤ ispeedStatus lib fd speed → 0 ≤ ospeedStatus lib fd speed →
          setattrStatus lib fd speed < 0 → (setBaudrate lib fd baud).ret = -1)) := by
  refine ⟨?_, ?_, ?_⟩
  · rw [← speedOf_none_iff]
    constructor
    · rintro ⟨_, hc⟩
      cases hs : speedOf baud with
      | none => rfl
      | some speed =>
        exfalso
        simp only [setBaudrate, hs] at hc
        split_ifs at hc
    · intro hs
      simp [setBaudrate, hs]
  · intro hE
    rw [← speedOf_none_iff]
    constructor
    · intro hr
      cases hs : speedOf baud with
      | none => rfl
      | some speed =>
        exfalso
        simp only [setBaudrate, hs] at hr
        split_ifs at hr <;> simp only at hr <;> omega
    · intro hs
      simp [setBaudrate, hs]
  · intro hb
    cases hs : speedOf baud with
    | none => exact absurd hb ((speedOf_none_iff baud).1 hs)
    | some speed =>
      refine ⟨speed, rfl, ?_, ?_, ?_, ?_⟩
      · intro a1 a2 a3
        simp only [ispeedStatus, ospeedStatus, setattrStatus] at a1 a2 a3
        simp [setBaudrate, hs, not_lt.2 a1, not_lt.2 a2, not_lt.2 a3]
      · intro a1
        simp only [ispeedStatus] at a1
        simp [setBaudrate, hs, a1, SerialCall.afterIspeed]
      · intro a1 a2
        simp only [ispeedStatus, ospeedStatus] at a1 a2
        simp [setBaudrate, hs, not_lt.2 a1, a2, SerialCall.isSetattr]
      · intro a1 a2 a3
        simp only [ispeedStatus, ospeedStatus, setattrStatus] at a1 a2 a3
        simp [setBaudrate, hs, not_lt.2 a1, not_lt.2 a2, a3]

/-- C9 witness: on the worked serial library, 4800 baud is refused with
`-EINVAL` = -22 and no serial call; 115200 baud returns 0 after the four
calls when all succeed, and -1 after `tcgetattr` and `cfsetispeed` only when
`cfsetispeed` fails. -/
theorem setBaudrate_result_witness :
    ((setBaudrate (stubLib 0 0 0) 3 4800).ret = -(stubLib 0 0 0).EINVAL ∧
      (setBaudrate (stubLib 0 0 0) 3 4800).calls = []) ∧
    (setBaudrate (stubLib 0 0 0) 3 4800).ret = -22 ∧
    (setBaudrate (stubLib 0 0 0) 3 115200).ret = 0 ∧
    ((setBaudrate (stubLib 0 0 0) 3 115200).calls).length = 4 ∧
    (setBaudrate (stubLib (-1) 0 0) 3 115200).ret = -1 ∧
    ((setBaudrate (stubLib (-1) 0 0) 3 115200).calls).length = 2 :=
  ⟨(setBaudrate_result (stubLib 0 0 0) 3 4800).1.2 (by decide), by decide, by decide,
    by decide, by decide, by decide⟩

end GPSHelper

namespace FlightTaskManualStabilized

/-! ## Heading hold across update cycles -/

theorem updateHeadingSetpoints_offset_prev (m : MatrixLib) (s : Task) :
    (_updateHeadingSetpoints m s)._yaw_offset_prev = 0 := rfl

theorem updateHeadingSetpoints_hold (m : MatrixLib) (s : Task) (h : holdsHeading s) :
    (_updateHeadingSetpoints m s)._yaw_setpoint = s._yaw_setpoint - s._yaw_offset_prev := by
  obtain ⟨hspeed, hcount, hext⟩ := h
  have h1 : ¬ (|s._yawspeed_setpoint| > FLT_EPSILON) := not_lt.2 hspeed
  cases he : s._ext_yaw_handler with
  | none => simp [_updateHeadingSetpoints, h1, hcount, he]
  | some handler =>
    have h2 : handler.is_active = false := hext handler he
    simp [_updateHeadingSetpoints, h1, hcount, he, h2]

theorem updateThrustSetpoints_fields (m : MatrixLib) (t : Task) :
    ∃ yaw_offset : ℚ,
      (_updateThrustSetpoints m t)._yaw_setpoint =
        (if decide (t.aux1 > 1 / 2) = true then t._yaw_setpoint + yaw_offset
          else t._yaw_setpoint) ∧
      (_updateThrustSetpoints m t)._yaw_offset_prev =
        (if decide (t.aux1 > 1 / 2) = true then yaw_offset else t._yaw_offset_prev) :=
  ⟨_, rfl, rfl⟩

theorem updateThrustSetpoints_yaw (m : MatrixLib) (t : Task) (h0 : t._yaw_offset_prev = 0) :
    (_updateThrustSetpoints m t)._yaw_setpoint =
      t._yaw_setpoint + (_updateThrustSetpoints m t)._yaw_offset_prev := by
  obtain ⟨off, h1, h2⟩ := updateThrustSetpoints_fields m t
  rw [h1, h2, h0]
  cases decide (t.aux1 > 1 / 2)
  · rw [if_neg (by decide), if_neg (by decide), add_zero]
  · rw [if_pos rfl, if_pos rfl]

theorem updateHeadingSetpoints_aux1 (m : MatrixLib) (s : Task) :
    (_updateHeadingSetpoints m s).aux1 = s.aux1 := by
  unfold _updateHeadingSetpoints
  simp only
  split <;> split_ifs <;> rfl

theorem updateThrustSetpoints_unused (m : MatrixLib) (t : Task) (h : ¬ (t.aux1 > 1 / 2)) :
    (_updateThrustSetpoints m t)._yaw_offset_prev = t._yaw_offset_prev := by
  obtain ⟨off, _, h2⟩ := updateThrustSetpoints_fields m t
  rw [h2, decide_eq_false h, if_neg (by decide)]

theorem cycle_yaw (m : MatrixLib) (s : Task) (i : CycleInput) :
    (cycle m s i)._yaw_setpoint =
      (_updateHeadingSetpoints m (setInputs i s))._yaw_setpoint +
        (cycle m s i)._yaw_offset_prev := by
  exact updateThrustSetpoints_yaw m (_updateHeadingSetpoints m (setInputs i s))
    (updateHeadingSetpoints_offset_prev m _)

theorem cycle_hold (m : MatrixLib) (s : Task) (i : CycleInput)
    (h : holdsHeading (setInputs i s)) :
    (_updateHeadingSetpoints m (setInputs i s))._yaw_setpoint =
      s._yaw_setpoint - s._yaw_offset_prev ∧
    (cycle m s i)._yaw_setpoint - (cycle m s i)._yaw_offset_prev =
      s._yaw_setpoint - s._yaw_offset_prev := by
  have h1 : (_updateHeadingSetpoints m (setInputs i s))._yaw_setpoint =
      s._yaw_setpoint - s._yaw_offset_prev := updateHeadingSetpoints_hold m (setInputs i s) h
  refine ⟨h1, ?_⟩
  rw [cycle_yaw, h1]
  ring

theorem headingSetpoints_hold (m : MatrixLib) (inputs : List CycleInput) :
    ∀ s : Task, HoldRun m s inputs →
      (∀ y ∈ headingSetpoints m s inputs, y = s._yaw_setpoint - s._yaw_offset_prev) ∧
      (runCycles m s inputs)._yaw_setpoint - (runCycles m s inputs)._yaw_offset_prev =
        s._yaw_setpoint - s._yaw_offset_prev := by
  induction inputs with
  | nil =>
    intro s _
    exact ⟨fun y hy => by simp [headingSetpoints] at hy, rfl⟩
  | cons i rest ih =>
    intro s h
    obtain ⟨hfirst, hrest⟩ := h
    obtain ⟨h1, h2⟩ := cycle_hold m s i hfirst
    obtain ⟨ih1, ih2⟩ := ih (cycle m s i) hrest
    constructor
    · intro y hy
      simp only [headingSetpoints, List.mem_cons] at hy
      rcases hy with hy | hy
      · rw [hy, h1]
      · rw [ih1 y hy, h2]
    · show (runCycles m (cycle m s i) rest)._yaw_setpoint -
        (runCycles m (cycle m s i) rest)._yaw_offset_prev = _
      rw [ih2, h2]

theorem updateHeadingSetpoints_counter (m : MatrixLib) (s : Task) (h : holdsHeading s) :
    (_updateHeadingSetpoints m s)._heading_reset_counter = s._heading_reset_counter := by
  obtain ⟨hspeed, hcount, hext⟩ := h
  have h1 : ¬ (|s._yawspeed_setpoint| > FLT_EPSILON) := not_lt.2 hspeed
  cases he : s._ext_yaw_handler with
  | none => simp [_updateHeadingSetpoints, h1, hcount, he]
  | some handler =>
    have h2 : handler.is_active = false := hext handler he
    simp [_updateHeadingSetpoints, h1, hcount, he, h2]

theorem cycle_counter (m : MatrixLib) (s : Task) (i : CycleInput)
    (h : holdsHeading (setInputs i s)) :
    (cycle m s i)._heading_reset_counter = s._heading_reset_counter :=
  updateHeadingSetpoints_counter m (setInputs i s) h

theorem stickInput_holds (tilt aux1 : ℚ) (s : Task) (h : s._heading_reset_counter = 0) :
    holdsHeading (setInputs (stickInput tilt aux1) s) := by
  refine ⟨?_, h.symm, ?_⟩
  · show |(0 : ℚ)| ≤ FLT_EPSILON
    rw [abs_zero]
    unfold FLT_EPSILON
    norm_num
  · intro handler hh
    exact absurd hh (by simp [setInputs, stickInput])

theorem updateHeadingSetpoints_hold_eq (m : MatrixLib) (s : Task) (h : holdsHeading s)
    (hn : s._ext_yaw_handler = none) :
    _updateHeadingSetpoints m s =
      { s with _yaw_setpoint := s._yaw_setpoint - s._yaw_offset_prev, _yaw_offset_prev := 0 } := by
  obtain ⟨hspeed, hcount, _⟩ := h
  have h1 : ¬ (|s._yawspeed_setpoint| > FLT_EPSILON) := not_lt.2 hspeed
  simp [_updateHeadingSetpoints, h1, hcount, hn]

/-- On the worked matrix library, a cycle with half roll and pitch and the
aux1 switch on leaves the setpoint 1 - 0.09 and stores the offset -0.09. -/
theorem cycle_sample_offset :
    (cycle stubMatrix (sampleTask 1 false) (stickInput (1 / 2) 1))._yaw_setpoint = 91 / 100 ∧
    (cycle stubMatrix (sampleTask 1 false) (stickInput (1 / 2) 1))._yaw_offset_prev =
      -9 / 100 := by
  have hh := stickInput_holds (1 / 2) 1 (sampleTask 1 false) rfl
  unfold cycle _updateSetpoints
  rw [updateHeadingSetpoints_hold_eq stubMatrix _ hh rfl]
  simp [_updateThrustSetpoints, setInputs, stickInput, sampleTask, stubMatrix, constrain, M_PI_F]
  have ha : |(3 / 10 : ℚ)| = 3 / 10 := abs_of_pos (by norm_num)
  norm_num [ha]

/-- C11: the current heading is held when no more rotation is commanded. In
exact arithmetic, for every sequence of update cycles (`_updateHeadingSetpoints`
followed by `_updateThrustSetpoints`) each of which finds the yaw speed
setpoint within `FLT_EPSILON` of 0, `quat_reset_counter` equal to
`_heading_reset_counter` and no external yaw handler active, the
`_yaw_setpoint` left by `_updateHeadingSetpoints` is the same in every cycle,
whatever sticks, tilt and aux1 switch `_updateThrustSetpoints` saw in between:
it is the setpoint less the stored offset the sequence started from. After
each cycle the setpoint is that heading plus the stored offset, so the offset
added in one cycle is subtracted in the next and never accumulates; and
`_yaw_offset_prev` is 0 after a cycle in which the offset was not used. -/
theorem heading_held (m : MatrixLib) (s : Task) (inputs : List CycleInput)
    (h : HoldRun m s inputs) :
    (∀ y ∈ headingSetpoints m s inputs, y = s._yaw_setpoint - s._yaw_offset_prev) ∧
    List.Pairwise (fun earlier later => later = earlier) (headingSetpoints m s inputs) ∧
    (runCycles m s inputs)._yaw_setpoint - (runCycles m s inputs)._yaw_offset_prev =
      s._yaw_setpoint - s._yaw_offset_prev ∧
    (∀ (t : Task) (i : CycleInput),
      (cycle m t i)._yaw_setpoint =
        (_updateHeadingSetpoints m (setInputs i t))._yaw_setpoint +
          (cycle m t i)._yaw_offset_prev) ∧
    (∀ (t : Task) (i : CycleInput), ¬ (i.aux1 > 1 / 2) → (cycle m t i)._yaw_offset_prev = 0) := by
  obtain ⟨h1, h2⟩ := headingSetpoints_hold m inputs s h
  refine ⟨h1, ?_, h2, cycle_yaw m, ?_⟩
  · rw [List.pairwise_iff_forall_sublist]
    intro a b hab
    have ha := h1 a (hab.subset (by simp))
    have hb := h1 b (hab.subset (by simp))
    rw [ha, hb]
  · intro t i hi
    have ha : (_updateHeadingSetpoints m (setInputs i t)).aux1 = i.aux1 :=
      updateHeadingSetpoints_aux1 m (setInputs i t)
    have hu := updateThrustSetpoints_unused m (_updateHeadingSetpoints m (setInputs i t))
      (by rw [ha]; exact hi)
    rw [updateHeadingSetpoints_offset_prev] at hu
    exact hu

/-- C11 witness: three cycles from the sample task (setpoint 1, no stored
offset, estimated yaw 3) with half tilt and the switch on, full tilt and the
switch off, quarter tilt and the switch on: each cycle holds the heading, the
heading setpoint of every cycle is 1, although the first cycle left the
setpoint 0.91 with the offset -0.09 stored. -/
theorem heading_held_witness :
    HoldRun stubMatrix (sampleTask 1 false)
      [stickInput (1 / 2) 1, stickInput 1 0, stickInput (1 / 4) 1] ∧
    (∀ y ∈ headingSetpoints stubMatrix (sampleTask 1 false)
        [stickInput (1 / 2) 1, stickInput 1 0, stickInput (1 / 4) 1],
      y = (sampleTask 1 false)._yaw_setpoint - (sampleTask 1 false)._yaw_offset_prev) ∧
    (sampleTask 1 false)._yaw_setpoint - (sampleTask 1 false)._yaw_offset_prev = 1 ∧
    (cycle stubMatrix (sampleTask 1 false) (stickInput (1 / 2) 1))._yaw_setpoint = 91 / 100 ∧
    (cycle stubMatrix (sampleTask 1 false) (stickInput (1 / 2) 1))._yaw_offset_prev =
      -9 / 100 :=
  have h1 := stickInput_holds (1 / 2) 1 (sampleTask 1 false) rfl
  have c1 := cycle_counter stubMatrix (sampleTask 1 false) (stickInput (1 / 2) 1) h1
  have h2 := stickInput_holds 1 0 (cycle stubMatrix (sampleTask 1 false) (stickInput (1 / 2) 1))
    (c1.trans rfl)
  have c2 := cycle_counter stubMatrix
    (cycle stubMatrix (sampleTask 1 false) (stickInput (1 / 2) 1)) (stickInput 1 0) h2
  have h3 := stickInput_holds (1 / 4) 1
    (cycle stubMatrix (cycle stubMatrix (sampleTask 1 false) (stickInput (1 / 2) 1))
      (stickInput 1 0)) (c2.trans (c1.trans rfl))
  have hrun : HoldRun stubMatrix (sampleTask 1 false)
      [stickInput (1 / 2) 1, stickInput 1 0, stickInput (1 / 4) 1] := ⟨h1, h2, h3, trivial⟩
  ⟨hrun, (heading_held stubMatrix (sampleTask 1 false) _ hrun).1, by simp [sampleTask],
    cycle_sample_offset.1, cycle_sample_offset.2⟩

end FlightTaskManualStabilized
